import Mathlib

/-!
Verification development for the two Streamlit e-commerce dashboards
(`ecommerce-dash-pdf.py` and `ecommerce-dashboard.py`).  The pandas
DataFrame is embedded shallowly: a `Frame` is an ordered list of rows,
each row an association list from column name to a typed cell value.
Dates carry no time-of-day component (the CSV is parsed with
`pd.to_datetime` on date strings), and numeric cells are modelled as
rationals.  Sidebar state (the chosen date range and category) is passed
explicitly; each definition is translated from the corresponding lines
of the Python source.
-/

/-- Calendar date as produced by `pd.to_datetime` on the date column. -/
structure Date where
  year : Nat
  month : Nat
  day : Nat
deriving DecidableEq, Repr

/-- Cell value of a DataFrame: string, numeric, or datetime dtype. -/
inductive Val where
  | vStr (s : String)
  | vNum (q : ℚ)
  | vDate (d : Date)
deriving DecidableEq, Repr

/-- One DataFrame row: an association list from column name to cell. -/
abbrev Row := List (String × Val)

/-- A pandas DataFrame: the ordered column list plus the ordered rows. -/
structure Frame where
  cols : List String
  rows : List Row
deriving DecidableEq, Repr

/-- Cell lookup `row[col]`: first binding of the column name, if any. -/
def rowGet (r : Row) (c : String) : Option Val :=
  (r.find? (fun p => p.1 == c)).map (fun p => p.2)

/-- String content of a cell; `none` when absent or of another dtype. -/
def getStr (r : Row) (c : String) : Option String :=
  match rowGet r c with
  | some (Val.vStr s) => some s
  | _ => none

/-- Numeric content of a cell; `none` models a missing value (NaN). -/
def getNum (r : Row) (c : String) : Option ℚ :=
  match rowGet r c with
  | some (Val.vNum q) => some q
  | _ => none

/-- Date content of a cell; `none` models a missing value (NaT). -/
def getDate (r : Row) (c : String) : Option Date :=
  match rowGet r c with
  | some (Val.vDate d) => some d
  | _ => none

/-- Column Resolver: `for col in cands: if col in df.columns: ...` picks
the first candidate present among the column names. -/
def resolveColumn (cands : List String) (cols : List String) : Option String :=
  cands.find? (fun c => cols.contains c)

/-- Candidate list for the date role (`ecommerce-dash-pdf.py:418`). -/
def dateCandidates : List String := ["Date", "Order Date"]

/-- Candidate list for the category role (line 441). -/
def categoryCandidates : List String := ["Category", "Product Category", "Item Category"]

/-- Candidate list for the amount role (line 463). -/
def amountCandidates : List String := ["Amount", "Sales", "Total", "Revenue", "Price"]

/-- Candidate list for the quantity role (line 469). -/
def quantityCandidates : List String := ["Quantity", "Qty", "Units"]

/-- Lexicographic order on dates, matching pandas datetime comparison. -/
def dateLeB (a b : Date) : Bool :=
  decide (a.year < b.year) ||
    (a.year == b.year &&
      (decide (a.month < b.month) || (a.month == b.month && decide (a.day ≤ b.day))))

/-- Zero-padded two-digit rendering used inside ISO date strings. -/
def pad2 (n : Nat) : String :=
  if n < 10 then "0" ++ toString n else toString n

/-- Zero-padded four-digit rendering of the year. -/
def pad4 (n : Nat) : String :=
  if n < 10 then "000" ++ toString n
  else if n < 100 then "00" ++ toString n
  else if n < 1000 then "0" ++ toString n
  else toString n

/-- `str(date)` for a Python `datetime.date`: ISO `YYYY-MM-DD`. -/
def dateToString (d : Date) : String :=
  pad4 d.year ++ "-" ++ pad2 d.month ++ "-" ++ pad2 d.day

/-- `str(ts.to_period("M"))`: the `YYYY-MM` month key of a date. -/
def monthStr (d : Date) : String :=
  pad4 d.year ++ "-" ++ pad2 d.month

/-- Row predicate of the date mask
`(df[date_col] >= start) & (df[date_col] <= end)` (lines 434-435); a
missing date compares false and the row is dropped, as in pandas. -/
def rowDateInRange (r : Row) (dc : String) (s e : Date) : Bool :=
  match getDate r dc with
  | some d => dateLeB s d && dateLeB d e
  | none => false

/-- Filter Applier, date part (lines 433-438): with exactly two endpoints
the rows are masked inclusively and the description records the range;
otherwise the frame is untouched and the description is `All Dates`.
Returns the narrowed frame and the `filter_info["date_range"]` entry
(`none` when the date role is unbound and the branch never runs). -/
def applyDateFilter (df : Frame) (dc : Option String) (range : List Date) :
    Frame × Option String :=
  match dc with
  | none => (df, none)
  | some c =>
    match range with
    | [s, e] =>
      ({ df with rows := df.rows.filter (fun r => rowDateInRange r c s e) },
        some (dateToString s ++ " to " ++ dateToString e))
    | _ => (df, some "All Dates")

/-- Filter Applier, category part (lines 446-453): any selection other
than the `All` sentinel keeps exactly the rows whose category cell
equals the selection; `All` leaves the frame untouched.  Returns the
narrowed frame and the `filter_info["category"]` entry. -/
def applyCategoryFilter (df : Frame) (cc : Option String) (sel : String) :
    Frame × Option String :=
  match cc with
  | none => (df, none)
  | some c =>
    (if sel != "All" then
        { df with rows := df.rows.filter (fun r => getStr r c == some sel) }
      else df,
      some sel)

/-- Digit grouping: insert a comma after every three characters of the
reversed digit string (the `,` flag of Python format specs). -/
def group3 : List Char → List Char
  | [] => []
  | [a] => [a]
  | [a, b] => [a, b]
  | [a, b, c] => [a, b, c]
  | a :: b :: c :: d :: rest => a :: b :: c :: ',' :: group3 (d :: rest)

/-- `f"{n:,}"` for a natural number: thousands-separated digits. -/
def fmtNatCommas (n : Nat) : String :=
  String.mk (group3 (toString n).data.reverse).reverse

/-- Floor of a rational, computed from its reduced fraction. -/
def rfloor (q : ℚ) : ℤ := q.num.fdiv q.den

/-- Round half to even, the rounding of Python float formatting. -/
def rhe (q : ℚ) : ℤ :=
  if q - (rfloor q : ℚ) < 1 / 2 then rfloor q
  else if 1 / 2 < q - (rfloor q : ℚ) then rfloor q + 1
  else if rfloor q % 2 = 0 then rfloor q else rfloor q + 1

/-- Dollar string from a signed count of cents. -/
def fmtCents (c : ℤ) : String :=
  (if c < 0 then "$-" else "$") ++
    fmtNatCommas (c.natAbs / 100) ++ "." ++ pad2 (c.natAbs % 100)

/-- `f"${x:,.2f}"`: currency with two decimals and digit grouping. -/
def fmtMoney (q : ℚ) : String := fmtCents (rhe (100 * q))

/-- `f"${x:,.2f}"` applied to a possibly-NaN mean: formatting the NaN
float produces the literal string `$nan`. -/
def fmtMoneyNan (x : Option ℚ) : String :=
  match x with
  | none => "$nan"
  | some q => fmtMoney q

/-- `f"{x:,.0f}"`: rounded integer with digit grouping. -/
def fmtUnits (q : ℚ) : String :=
  (if rhe q < 0 then "-" else "") ++ fmtNatCommas (rhe q).natAbs

/-- Non-null numeric values of a column, in row order (what pandas
aggregations over the column actually consume). -/
def colNums (df : Frame) (c : String) : List ℚ :=
  df.rows.filterMap (fun r => getNum r c)

/-- `df[c].sum()`: missing values are skipped, the empty sum is `0`. -/
def seriesSum (df : Frame) (c : String) : ℚ := (colNums df c).sum

/-- `df[c].mean()`: sum of the non-null values over their count; on an
empty column pandas produces NaN, modelled as `none`. -/
def seriesMean (df : Frame) (c : String) : Option ℚ :=
  let xs := colNums df c
  if xs.length = 0 then none else some (xs.sum / (xs.length : ℚ))

/-- Metrics Aggregator (`metrics_data`, lines 474-492), as an ordered
association list mirroring dict insertion order: the two amount-based
entries exist only when the amount role is bound, `total_orders` always
exists, and `total_units` always exists, holding `N/A` when the
quantity role is unbound. -/
def metricsData (df : Frame) (ac qc : Option String) : List (String × String) :=
  (match ac with
    | some a =>
      [("total_sales", fmtMoney (seriesSum df a)),
        ("avg_order_value", fmtMoneyNan (seriesMean df a))]
    | none => []) ++
  [("total_orders", fmtNatCommas df.rows.length)] ++
  [("total_units",
    match qc with
    | some q => fmtUnits (seriesSum df q)
    | none => "N/A")]

/-- Character-list comparison by Unicode code point (Python string
order, which pandas uses when sorting object-dtype keys). -/
def charsLe : List Char → List Char → Bool
  | [], _ => true
  | _ :: _, [] => false
  | a :: as, b :: bs =>
    if a.toNat < b.toNat then true
    else if b.toNat < a.toNat then false
    else charsLe as bs

/-- String comparison by code points, via the underlying char lists. -/
def strLeB (a b : String) : Bool := charsLe a.data b.data

/-- Stable insertion step: `a` goes in front of the first element it
compares `le` to, so elements comparing equal keep their input order. -/
def insertLe {α : Type} (le : α → α → Bool) (a : α) : List α → List α
  | [] => [a]
  | b :: l => if le a b then a :: b :: l else b :: insertLe le a l

/-- Stable insertion sort; the deterministic model of the sorts the
two scripts delegate to pandas. -/
def sortByLe {α : Type} (le : α → α → Bool) : List α → List α
  | [] => []
  | a :: l => insertLe le a (sortByLe le l)

/-- Group keys of `df.groupby(cc)`: the distinct category strings,
sorted ascending (pandas groups with `sort=True`); rows whose category
cell is missing are dropped, as pandas drops NaN group keys. -/
def groupKeys (df : Frame) (cc : String) : List String :=
  sortByLe strLeB (df.rows.filterMap (fun r => getStr r cc)).dedup

/-- `df.groupby(cc)[ac].sum()`: one `(key, summed amount)` pair per
distinct category, in ascending key order. -/
def groupSum (df : Frame) (cc ac : String) : List (String × ℚ) :=
  (groupKeys df cc).map (fun k =>
    (k, ((df.rows.filter (fun r => getStr r cc == some k)).filterMap
          (fun r => getNum r ac)).sum))

/-- Comparison on summed amounts for `Series.sort_values`. -/
def valLeB (a b : String × ℚ) : Bool := decide (a.2 ≤ b.2)

/-- `sort_values(ascending=True)` on the grouped sums. -/
def sortValuesAsc (g : List (String × ℚ)) : List (String × ℚ) :=
  sortByLe valLeB g

/-- `sort_values(ascending=False)`: pandas computes the ascending
argsort and reverses it (`nargsort` flips the indexer), so the
descending order is exactly the reverse of the ascending one — ties
included. -/
def sortValuesDesc (g : List (String × ℚ)) : List (String × ℚ) :=
  (sortValuesAsc g).reverse

/-- Last `n` elements of a list in order: `Series.tail(n)`. -/
def lastN {α : Type} (l : List α) (n : Nat) : List α :=
  l.drop (l.length - n)

/-- `df.groupby(cat)[amt].sum().sort_values(ascending=False).head(10)`:
the top-10 computation of the dashboard bar chart
(`ecommerce-dashboard.py:120`, `ecommerce-dash-pdf.py:515`) and of the
PDF detail table (`ecommerce-dash-pdf.py:341`). -/
def topCategoriesDesc (df : Frame) (cc ac : String) : List (String × ℚ) :=
  (sortValuesDesc (groupSum df cc ac)).take 10

/-- `df.groupby(cat)[amt].sum().sort_values(ascending=True).tail(10)`:
the top-10 computation of the PDF bar chart
(`ecommerce-dash-pdf.py:51`), ascending with the last ten kept. -/
def topCategoriesChartAsc (df : Frame) (cc ac : String) : List (String × ℚ) :=
  lastN (sortValuesAsc (groupSum df cc ac)) 10

/-- The spec description of the Top-N preparation, stated in its own
words for comparison: sort descending with ties broken by the stable
original grouping order, then take the top 10. -/
def specTopCategoriesStable (df : Frame) (cc ac : String) : List (String × ℚ) :=
  (sortByLe (fun a b => decide (b.2 ≤ a.2)) (groupSum df cc ac)).take 10

/-- `total_revenue = top_categories.sum()` (line 344): the subtotal of
the top-10 rows only, not of the whole dataset. -/
def detailSubtotal (df : Frame) (cc ac : String) : ℚ :=
  ((topCategoriesDesc df cc ac).map (fun p => p.2)).sum

/-- Raw percentage of one detail-table row (line 347):
`revenue / total_revenue * 100` when the subtotal is positive, else 0. -/
def detailRawPercentages (df : Frame) (cc ac : String) : List ℚ :=
  (topCategoriesDesc df cc ac).map (fun p =>
    if 0 < detailSubtotal df cc ac then p.2 / detailSubtotal df cc ac * 100 else 0)

/-- One decimal place, round half to even: `f"{p:.1f}"`. -/
def round1 (q : ℚ) : ℚ := (rhe (10 * q) : ℚ) / 10

/-- The percentage column as displayed: each raw percentage rounded to
one decimal place. -/
def detailPercentagesRounded (df : Frame) (cc ac : String) : List ℚ :=
  (detailRawPercentages df cc ac).map round1

/-- The `Month` cell written by `df["Month"] =
df[date_col].dt.to_period("M").astype(str)` (line 542). -/
def rowMonthVal (dc : String) (r : Row) : Val :=
  match getDate r dc with
  | some d => Val.vStr (monthStr d)
  | none => Val.vStr "NaT"

/-- Write a cell under a column name: replace an existing binding, or
append the new column at the end of the row (pandas column assignment). -/
def setCell (r : Row) (c : String) (v : Val) : Row :=
  if r.any (fun p => p.1 == c) then
    r.map (fun p => if p.1 == c then (p.1, v) else p)
  else r ++ [(c, v)]

/-- Effect of the in-place assignment `df["Month"] = ...` on the
filtered frame: the `Month` column is appended (or overwritten) and
every row gains its month string. -/
def addMonthColumn (df : Frame) (dc : String) : Frame :=
  { cols := if df.cols.contains "Month" then df.cols else df.cols ++ ["Month"],
    rows := df.rows.map (fun r => setCell r "Month" (rowMonthVal dc r)) }

/-- The frame the CSV download button serializes (line 564).  The
monthly-comparison section (lines 539-543) runs before the download
section and mutates the filtered frame in place, but only when both the
date and the amount roles are bound; otherwise the filtered frame
reaches the export untouched.  All other computations between filtering
and export (metrics, chart preparations) build new objects. -/
def frameAtExport (df : Frame) (dc ac : Option String) : Frame :=
  match dc, ac with
  | some d, some _ => addMonthColumn df d
  | _, _ => df

/-- CSV rendering of one cell.  The decimal rendering of non-integral
numbers is abstracted (the claims compare serializations structurally);
strings are emitted verbatim, dates in ISO form. -/
def csvCell (v : Option Val) : String :=
  match v with
  | some (Val.vStr s) => s
  | some (Val.vNum q) =>
    if q.den = 1 then toString q.num else toString q.num ++ "/" ++ toString q.den
  | some (Val.vDate d) => dateToString d
  | none => ""

/-- `df.to_csv(index=False)`: the header line of column names followed
by one comma-joined line per row, newline-terminated. -/
def toCsv (df : Frame) : String :=
  String.intercalate "\n"
    (String.intercalate "," df.cols ::
      df.rows.map (fun r =>
        String.intercalate "," (df.cols.map (fun c => csvCell (rowGet r c))))) ++ "\n"

/-- The `filter_info` dict (lines 420-455). -/
structure FilterInfo where
  dateRange : Option String
  category : Option String
  totalRecords : String
deriving DecidableEq, Repr

/-- Filter Applier pipeline as executed (lines 422-455): date filter,
then category filter, then `filter_info["total_records"]` from the row
count of the result. -/
def filterPipeline (df : Frame) (dc : Option String) (range : List Date)
    (cc : Option String) (sel : String) : Frame × FilterInfo :=
  let d1 := applyDateFilter df dc range
  let d2 := applyCategoryFilter d1.1 cc sel
  (d2.1,
    { dateRange := d1.2, category := d2.2,
      totalRecords := fmtNatCommas d2.1.rows.length })

/-- The filtered Dataset produced by the sidebar filters. -/
def filteredFrame (df : Frame) (dc : Option String) (range : List Date)
    (cc : Option String) (sel : String) : Frame :=
  (filterPipeline df dc range cc sel).1

/-- Active Filter Criteria of one retained row: when the date role is
bound and exactly two endpoints were supplied the row date lies in the
inclusive range, and when the category role is bound and the selection
is not the `All` sentinel the row category equals the selection. -/
def rowSatisfiesActive (dc : Option String) (range : List Date)
    (cc : Option String) (sel : String) (r : Row) : Prop :=
  (∀ c s e, dc = some c → range = [s, e] → rowDateInRange r c s e = true) ∧
  (∀ c, cc = some c → sel ≠ "All" → getStr r c = some sel)

/-- Abstract element of the assembled PDF story, one constructor per
kind of flowable appended to `elements` in `create_branded_pdf_report`. -/
inductive PdfElem where
  | spacer
  | brandBox
  | coverTitle
  | coverSubtitle
  | infoTable
  | pageBreak
  | heading (title : String)
  | bodyText (tag : String)
  | kpiTable
  | chartImage (key : String)
  | categoryTable
deriving DecidableEq, Repr

/-- Keys present in the `charts_data` dict (lines 572-585), in insertion
order, as functions of which column roles are bound.  The stored chart
buffers are always truthy, so key membership alone decides the
`in charts_data and charts_data[k]` tests. -/
def chartsData (dc ac cc : Bool) : List String :=
  (if dc && ac then ["sales_trend"] else []) ++
  (if cc && ac then ["top_categories"] else []) ++
  (if ac then ["sales_distribution"] else []) ++
  (if dc && ac then ["monthly_sales"] else [])

/-- The element sequence built by `create_branded_pdf_report`
(lines 167-393), in source order: cover, methodology, KPI grid, two
chart pages, detail table, footer.  Every heading is appended
unconditionally; only the chart images and the category detail table
are guarded by conditions. -/
def pdfElements (dc ac cc : Bool) : List PdfElem :=
  let charts := chartsData dc ac cc
  [PdfElem.spacer, PdfElem.brandBox, PdfElem.spacer, PdfElem.coverTitle,
    PdfElem.coverSubtitle, PdfElem.spacer, PdfElem.infoTable, PdfElem.pageBreak,
    PdfElem.heading "Key Assumptions & Methodology", PdfElem.spacer,
    PdfElem.bodyText "assumptions", PdfElem.pageBreak,
    PdfElem.heading "Executive Summary - Key Performance Indicators",
    PdfElem.spacer, PdfElem.kpiTable, PdfElem.pageBreak,
    PdfElem.heading "Sales Trend Analysis", PdfElem.spacer] ++
  (if charts.contains "sales_trend" then
      [PdfElem.chartImage "sales_trend", PdfElem.spacer] else []) ++
  [PdfElem.heading "Top Categories Performance", PdfElem.spacer] ++
  (if charts.contains "top_categories" then
      [PdfElem.chartImage "top_categories"] else []) ++
  [PdfElem.pageBreak, PdfElem.heading "Sales Distribution", PdfElem.spacer] ++
  (if charts.contains "sales_distribution" then
      [PdfElem.chartImage "sales_distribution", PdfElem.spacer] else []) ++
  [PdfElem.heading "Monthly Comparison", PdfElem.spacer] ++
  (if charts.contains "monthly_sales" then
      [PdfElem.chartImage "monthly_sales"] else []) ++
  [PdfElem.pageBreak, PdfElem.heading "Top 10 Categories - Detailed Breakdown",
    PdfElem.spacer] ++
  (if cc && ac then [PdfElem.categoryTable] else []) ++
  [PdfElem.spacer, PdfElem.bodyText "footer"]

/-- Marks the elements whose presence varies with the input roles: the
chart images and the category detail table. -/
def isVarElem : PdfElem → Bool
  | PdfElem.chartImage _ => true
  | PdfElem.categoryTable => true
  | _ => false

/-! ## Concrete frames used as witnesses and counterexamples -/

/-- Three-row frame with amounts 10, 20, 30 and no quantity column
(the scenario of spec section 8). -/
def exThree : Frame :=
  { cols := ["Amount"],
    rows := [[("Amount", Val.vNum 10)],
             [("Amount", Val.vNum 20)],
             [("Amount", Val.vNum 30)]] }

/-- Frame with two categories tied at a summed amount of 10 and one
smaller category, exercising tie-breaking of the top-10 sort. -/
def exTie : Frame :=
  { cols := ["Category", "Amount"],
    rows := [[("Category", Val.vStr "A"), ("Amount", Val.vNum 10)],
             [("Category", Val.vStr "B"), ("Amount", Val.vNum 10)],
             [("Category", Val.vStr "C"), ("Amount", Val.vNum 5)]] }

/-- Frame with two categories splitting revenue 60 / 40, exercising the
detail-table percentage column. -/
def exPct : Frame :=
  { cols := ["Category", "Amount"],
    rows := [[("Category", Val.vStr "A"), ("Amount", Val.vNum 60)],
             [("Category", Val.vStr "B"), ("Amount", Val.vNum 40)]] }

/-- One-row frame with bound date and amount roles, exercising the
`Month` column added before the CSV export. -/
def exExport : Frame :=
  { cols := ["Date", "Amount"],
    rows := [[("Date", Val.vDate ⟨2024, 1, 15⟩), ("Amount", Val.vNum 100)]] }

/-- Frame with rows on 2024-01-01 and 2024-01-10 only, so the range
2024-01-03 to 2024-01-05 filters it down to no rows at all. -/
def exGap : Frame :=
  { cols := ["Date", "Amount", "Category"],
    rows := [[("Date", Val.vDate ⟨2024, 1, 1⟩), ("Amount", Val.vNum 25),
                ("Category", Val.vStr "Books")],
             [("Date", Val.vDate ⟨2024, 1, 10⟩), ("Amount", Val.vNum 75),
                ("Category", Val.vStr "Games")]] }

/-! ## Helper lemmas -/

/-- Inserting into a list gives a permutation of consing. -/
theorem insertLe_perm {α : Type} (le : α → α → Bool) (a : α) :
    ∀ l : List α, (insertLe le a l).Perm (a :: l) := by
  intro l
  induction l with
  | nil => simp [insertLe]
  | cons b t ih =>
    rw [insertLe]
    split
    · exact List.Perm.refl _
    · exact ((ih.cons b).trans (List.Perm.swap a b t))

/-- Insertion sort permutes its input. -/
theorem sortByLe_perm {α : Type} (le : α → α → Bool) :
    ∀ l : List α, (sortByLe le l).Perm l := by
  intro l
  induction l with
  | nil => exact List.Perm.refl _
  | cons a t ih => exact (insertLe_perm le a (sortByLe le t)).trans (ih.cons a)

/-- Membership in an insertion-sorted list. -/
theorem mem_sortByLe {α : Type} (le : α → α → Bool) (l : List α) (x : α) :
    x ∈ sortByLe le l ↔ x ∈ l :=
  (sortByLe_perm le l).mem_iff

/-- Inserting into a pairwise-ordered list keeps it pairwise ordered,
for a total and transitive comparison. -/
theorem pairwise_insertLe {α : Type} (le : α → α → Bool)
    (htot : ∀ a b, le a b = true ∨ le b a = true)
    (htrans : ∀ a b c, le a b = true → le b c = true → le a c = true)
    (a : α) :
    ∀ l : List α, l.Pairwise (fun x y => le x y = true) →
      (insertLe le a l).Pairwise (fun x y => le x y = true) := by
  intro l
  induction l with
  | nil => intro _; simp [insertLe]
  | cons b t ih =>
    intro h
    rw [List.pairwise_cons] at h
    rw [insertLe]
    split
    · rename_i hab
      rw [List.pairwise_cons]
      refine ⟨?_, List.pairwise_cons.mpr h⟩
      intro y hy
      rcases List.mem_cons.mp hy with rfl | hyt
      · exact hab
      · exact htrans a b y hab (h.1 y hyt)
    · rename_i hab
      have hba : le b a = true := by
        rcases htot a b with h1 | h1
        · exact absurd h1 hab
        · exact h1
      rw [List.pairwise_cons]
      refine ⟨?_, ih h.2⟩
      intro y hy
      rcases List.mem_cons.mp ((insertLe_perm le a t).mem_iff.mp hy) with rfl | h2
      · exact hba
      · exact h.1 y h2

/-- Insertion sort yields a pairwise-ordered list, for a total and
transitive comparison. -/
theorem pairwise_sortByLe {α : Type} (le : α → α → Bool)
    (htot : ∀ a b, le a b = true ∨ le b a = true)
    (htrans : ∀ a b c, le a b = true → le b c = true → le a c = true) :
    ∀ l : List α, (sortByLe le l).Pairwise (fun x y => le x y = true) := by
  intro l
  induction l with
  | nil => simp [sortByLe]
  | cons a t ih => exact pairwise_insertLe le htot htrans a _ ih

/-- The last `n` elements are the reverse of the first `n` of the
reverse. -/
theorem lastN_eq_reverse_take {α : Type} (l : List α) (n : Nat) :
    lastN l n = (l.reverse.take n).reverse := by
  have h := @List.reverse_take α l.reverse n
  simp only [List.reverse_reverse, List.length_reverse] at h
  rw [lastN, ← h]

/-- The executable floor agrees with the mathematical floor. -/
theorem rfloor_eq_floor (q : ℚ) : rfloor q = ⌊q⌋ := by
  rw [rfloor, Rat.floor_def, Int.fdiv_eq_ediv _ (Int.natCast_nonneg q.den)]

/-- Half-to-even rounding moves a rational by at most one half. -/
theorem abs_rhe_sub (q : ℚ) : |(rhe q : ℚ) - q| ≤ 1 / 2 := by
  have h0 : ((rfloor q : ℤ) : ℚ) ≤ q := by
    rw [rfloor_eq_floor]; exact Int.floor_le q
  have h1 : q < ((rfloor q : ℤ) : ℚ) + 1 := by
    rw [rfloor_eq_floor]; exact Int.lt_floor_add_one q
  rw [rhe]
  split_ifs with hlt hgt hev
  · rw [abs_le]; constructor <;> linarith
  · rw [abs_le]; push_cast; constructor <;> linarith
  · rw [abs_le]; constructor <;> linarith
  · rw [abs_le]; push_cast; constructor <;> linarith

/-- Rounding to one decimal moves a rational by at most `1 / 20`. -/
theorem abs_round1_sub (q : ℚ) : |round1 q - q| ≤ 1 / 20 := by
  have h := abs_rhe_sub (10 * q)
  have heq : round1 q - q = ((rhe (10 * q) : ℚ) - 10 * q) / 10 := by
    rw [round1]; ring
  rw [heq, abs_div]
  have h10 : |(10 : ℚ)| = 10 := by norm_num
  rw [h10]
  linarith

/-- Summing the rounded values stays within `n / 20` of the raw sum. -/
theorem sum_round1_bound :
    ∀ l : List ℚ, |(l.map round1).sum - l.sum| ≤ (l.length : ℚ) * (1 / 20) := by
  intro l
  induction l with
  | nil => simp
  | cons a t ih =>
    have h1 := abs_round1_sub a
    have tri := abs_add (round1 a - a) ((t.map round1).sum - t.sum)
    simp only [List.map_cons, List.sum_cons, List.length_cons]
    have heq : round1 a + (t.map round1).sum - (a + t.sum) =
        (round1 a - a) + ((t.map round1).sum - t.sum) := by ring
    rw [heq]
    push_cast
    calc |(round1 a - a) + ((t.map round1).sum - t.sum)|
        ≤ |round1 a - a| + |(t.map round1).sum - t.sum| := tri
      _ ≤ 1 / 20 + (t.length : ℚ) * (1 / 20) := by
          have := ih
          linarith
      _ = ((t.length : ℚ) + 1) * (1 / 20) := by ring

/-- The date filter only ever removes rows. -/
theorem applyDateFilter_sublist (df : Frame) (dc : Option String) (range : List Date) :
    (applyDateFilter df dc range).1.rows.Sublist df.rows := by
  cases dc with
  | none => exact List.Sublist.refl _
  | some c =>
    rcases range with _ | ⟨s, _ | ⟨e, _ | ⟨x, t⟩⟩⟩
    · exact List.Sublist.refl _
    · exact List.Sublist.refl _
    · exact List.filter_sublist _
    · exact List.Sublist.refl _

/-- The category filter only ever removes rows. -/
theorem applyCategoryFilter_sublist (df : Frame) (cc : Option String) (sel : String) :
    (applyCategoryFilter df cc sel).1.rows.Sublist df.rows := by
  cases cc with
  | none => exact List.Sublist.refl _
  | some c =>
    by_cases h : (sel != "All") = true
    · simp only [applyCategoryFilter, h, if_true]
      exact List.filter_sublist _
    · simp only [applyCategoryFilter, h, if_false]
      exact List.Sublist.refl _

/-! ## Claims -/

/-- Claim C4: with a bound date role and exactly two endpoints, the date
filter retains exactly the rows whose date lies between the endpoints,
inclusively on both bounds (the comparison is reflexive); with a single
endpoint no filtering happens and the description records `All Dates`. -/
theorem date_filter_range_spec (df : Frame) (c : String) (s e : Date) :
    (∀ r, r ∈ (applyDateFilter df (some c) [s, e]).1.rows ↔
        r ∈ df.rows ∧
          ∃ d, getDate r c = some d ∧ dateLeB s d = true ∧ dateLeB d e = true) ∧
    (applyDateFilter df (some c) [s, e]).2 =
      some (dateToString s ++ " to " ++ dateToString e) ∧
    (∀ d0 : Date, applyDateFilter df (some c) [d0] = (df, some "All Dates")) ∧
    (∀ d0 : Date, dateLeB d0 d0 = true) := by
  refine ⟨?_, rfl, fun d0 => rfl, fun d0 => by simp [dateLeB]⟩
  intro r
  show r ∈ df.rows.filter (fun r => rowDateInRange r c s e) ↔ _
  rw [List.mem_filter]
  constructor
  · rintro ⟨hr, hp⟩
    refine ⟨hr, ?_⟩
    rw [rowDateInRange] at hp
    cases hgd : getDate r c with
    | none => rw [hgd] at hp; cases hp
    | some d =>
      rw [hgd] at hp
      exact ⟨d, rfl, (Bool.and_eq_true _ _).mp hp⟩
  · rintro ⟨hr, d, hgd, h1, h2⟩
    exact ⟨hr, by simp [rowDateInRange, hgd, h1, h2]⟩

/-- Claim C5: filtering is monotonic — the filtered frame never has more
rows than the source, every retained row comes from the source and
satisfies all active Filter Criteria (inclusive date range when two
endpoints are supplied, exact category equality when the selection is
not the `All` sentinel), and the `All` sentinel imposes no category
constraint. -/
theorem filter_monotone_sound (df : Frame) (dc : Option String)
    (range : List Date) (cc : Option String) (sel : String) :
    (filteredFrame df dc range cc sel).rows.length ≤ df.rows.length ∧
    (∀ r, r ∈ (filteredFrame df dc range cc sel).rows → r ∈ df.rows) ∧
    (∀ r, r ∈ (filteredFrame df dc range cc sel).rows →
      rowSatisfiesActive dc range cc sel r) ∧
    (∀ df2 : Frame, ∀ c : String,
      (applyCategoryFilter df2 (some c) "All").1 = df2) := by
  have hsub1 : (filteredFrame df dc range cc sel).rows.Sublist
      (applyDateFilter df dc range).1.rows :=
    applyCategoryFilter_sublist (applyDateFilter df dc range).1 cc sel
  have hsub2 : (applyDateFilter df dc range).1.rows.Sublist df.rows :=
    applyDateFilter_sublist df dc range
  have hsub : (filteredFrame df dc range cc sel).rows.Sublist df.rows :=
    hsub1.trans hsub2
  refine ⟨hsub.length_le, fun r hr => hsub.subset hr, ?_, ?_⟩
  · intro r hr
    constructor
    · intro c s e hdc hrange
      subst hdc; subst hrange
      have hr1 : r ∈ (applyDateFilter df (some c) [s, e]).1.rows := hsub1.subset hr
      have : r ∈ df.rows.filter (fun r => rowDateInRange r c s e) := hr1
      exact (List.mem_filter.mp this).2
    · intro c hcc hsel
      subst hcc
      have hb : (sel != "All") = true := bne_iff_ne.mpr hsel
      have hr2 : r ∈ (applyCategoryFilter (applyDateFilter df dc range).1
          (some c) sel).1.rows := hr
      rw [show (applyCategoryFilter (applyDateFilter df dc range).1
          (some c) sel).1 =
        { (applyDateFilter df dc range).1 with
          rows := (applyDateFilter df dc range).1.rows.filter
            (fun r => getStr r c == some sel) } by
          simp [applyCategoryFilter, hb]] at hr2
      have := (List.mem_filter.mp hr2).2
      exact (beq_iff_eq).mp this
  · intro df2 c
    simp [applyCategoryFilter]

/-- Claim C3 (amended): the amount-based entries of the Metrics Bundle
appear exactly when the amount role is bound and `total_orders` always
appears, but the `total_units` entry is always present — when the
quantity role is unbound it appears holding the `N/A` marker instead of
being omitted. -/
theorem metrics_entry_presence (df : Frame) (a q : String)
    (ac qc : Option String) :
    List.lookup "total_sales" (metricsData df none qc) = none ∧
    List.lookup "avg_order_value" (metricsData df none qc) = none ∧
    (List.lookup "total_sales" (metricsData df (some a) qc)).isSome = true ∧
    (List.lookup "avg_order_value" (metricsData df (some a) qc)).isSome = true ∧
    (List.lookup "total_orders" (metricsData df ac qc)).isSome = true ∧
    List.lookup "total_units" (metricsData df ac none) = some "N/A" ∧
    (List.lookup "total_units" (metricsData df ac (some q))).isSome = true := by
  refine ⟨rfl, rfl, rfl, rfl, ?_, ?_, ?_⟩
  · cases ac <;> rfl
  · cases ac <;> rfl
  · cases ac <;> rfl

/-- Claim C3, counterexample to the claim as stated: on the three-row
frame with a bound amount role and no quantity column, the Metrics
Bundle nevertheless contains a `total_units` entry — an entry whose
metric depends on the unbound quantity role. -/
theorem metrics_total_units_appears :
    List.lookup "total_units" (metricsData exThree (some "Amount") none)
      = some "N/A" := rfl

unseal Rat.add Rat.mul Rat.inv Rat.sub in
/-- Claim C6: on the three-row frame with amounts 10, 20, 30 and no
quantity role, the Metrics Bundle is exactly total sales `$60.00`,
average order value `$20.00`, total orders `3`, and the `N/A`
not-applicable marker for total units; and for every frame the
`total_orders` entry is the row count with thousands separators. -/
theorem metrics_bundle_scenario :
    metricsData exThree (some "Amount") none =
      [("total_sales", "$60.00"), ("avg_order_value", "$20.00"),
        ("total_orders", "3"), ("total_units", "N/A")] ∧
    ∀ (df : Frame) (ac qc : Option String),
      List.lookup "total_orders" (metricsData df ac qc) =
        some (fmtNatCommas df.rows.length) := by
  constructor
  · decide
  · intro df ac qc
    cases ac <;> rfl

/-- Claim C2 (amended): when the amount role is bound and the filtered
frame has no amount values, the mean underlying the average-order-value
metric is NaN (`none` in this embedding) and the bundle displays the
string `$nan` — no error propagates to the error boundary, and the
value is not coerced to `$0.00`. -/
theorem avg_order_value_empty_is_nan (df : Frame) (a : String)
    (qc : Option String) (h : colNums df a = []) :
    seriesMean df a = none ∧
    List.lookup "avg_order_value" (metricsData df (some a) qc) = some "$nan" ∧
    List.lookup "avg_order_value" (metricsData df (some a) qc) ≠ some "$0.00" := by
  have hm : seriesMean df a = none := by
    rw [seriesMean]
    simp [h]
  have hl : List.lookup "avg_order_value" (metricsData df (some a) qc)
      = some (fmtMoneyNan (seriesMean df a)) := rfl
  refine ⟨hm, ?_, ?_⟩
  · rw [hl, hm]; rfl
  · rw [hl, hm]
    intro hcontra
    exact absurd (Option.some.inj hcontra) (by decide)

/-- Claim C2, witness: the date range 2024-01-03 to 2024-01-05 on the
two-row frame leaves no rows, and the bundle then shows `$nan`. -/
theorem avg_order_value_empty_is_nan_witness :
    colNums (filteredFrame exGap (some "Date")
        [⟨2024, 1, 3⟩, ⟨2024, 1, 5⟩] none "All") "Amount" = [] ∧
    List.lookup "avg_order_value"
        (metricsData (filteredFrame exGap (some "Date")
          [⟨2024, 1, 3⟩, ⟨2024, 1, 5⟩] none "All") (some "Amount") none)
      = some "$nan" := by
  have h : colNums (filteredFrame exGap (some "Date")
      [⟨2024, 1, 3⟩, ⟨2024, 1, 5⟩] none "All") "Amount" = [] := by decide
  exact ⟨h,
    (avg_order_value_empty_is_nan (filteredFrame exGap (some "Date")
      [⟨2024, 1, 3⟩, ⟨2024, 1, 5⟩] none "All") "Amount" none h).2.1⟩

/-- Claim C2, counterexample to the claim as stated: a reachable filter
combination (a date range covering none of the rows) empties the frame
while the amount role is bound, yet computing the metrics raises no
error — the bundle simply holds the displayed value `$nan`, which is
also not a coercion to zero. -/
theorem avg_order_value_empty_displayed :
    (filteredFrame exGap (some "Date")
        [⟨2024, 1, 3⟩, ⟨2024, 1, 5⟩] none "All").rows = [] ∧
    List.lookup "avg_order_value"
        (metricsData (filteredFrame exGap (some "Date")
          [⟨2024, 1, 3⟩, ⟨2024, 1, 5⟩] none "All") (some "Amount") none)
      = some "$nan" ∧
    List.lookup "avg_order_value"
        (metricsData (filteredFrame exGap (some "Date")
          [⟨2024, 1, 3⟩, ⟨2024, 1, 5⟩] none "All") (some "Amount") none)
      ≠ some "$0.00" := by
  refine ⟨by decide, by decide, by decide⟩

/-- Claim C7 (amended): the Top-N Categories preparation groups rows by
category, sums amounts per group, and returns at most 10 entries of the
grouped sums sorted non-increasing by summed amount; ties are NOT broken
by the stable original grouping order — pandas produces the descending
order by reversing the ascending sort, so tied categories come out in
reversed grouping order. -/
theorem topCategories_sorted_bounded (df : Frame) (cc ac : String) :
    (topCategoriesDesc df cc ac).length ≤ 10 ∧
    (topCategoriesDesc df cc ac).Pairwise (fun a b => b.2 ≤ a.2) ∧
    (∀ p, p ∈ topCategoriesDesc df cc ac → p ∈ groupSum df cc ac) := by
  have htot : ∀ a b : String × ℚ, valLeB a b = true ∨ valLeB b a = true := by
    intro a b
    rcases le_total a.2 b.2 with h | h
    · exact Or.inl (decide_eq_true_iff.mpr h)
    · exact Or.inr (decide_eq_true_iff.mpr h)
  have htrans : ∀ a b c : String × ℚ,
      valLeB a b = true → valLeB b c = true → valLeB a c = true := by
    intro a b c h1 h2
    exact decide_eq_true_iff.mpr
      (le_trans (of_decide_eq_true h1) (of_decide_eq_true h2))
  have hsorted := pairwise_sortByLe valLeB htot htrans (groupSum df cc ac)
  refine ⟨List.length_take_le _ _, ?_, ?_⟩
  · have h1 : (sortValuesAsc (groupSum df cc ac)).Pairwise
        (fun a b => a.2 ≤ b.2) :=
      hsorted.imp (fun h => of_decide_eq_true h)
    have h2 : ((sortValuesAsc (groupSum df cc ac)).reverse).Pairwise
        (fun a b : String × ℚ => b.2 ≤ a.2) :=
      List.pairwise_reverse.mpr h1
    exact List.Pairwise.sublist (List.take_sublist _ _) h2
  · intro p hp
    have h3 : p ∈ (sortValuesAsc (groupSum df cc ac)).reverse :=
      (List.take_sublist _ _).subset hp
    rw [List.mem_reverse] at h3
    exact (mem_sortByLe valLeB _ p).mp h3

unseal Rat.add Rat.mul Rat.inv Rat.sub in
/-- Claim C7, counterexample to the claim as stated: with categories A
and B tied at a summed amount of 10 (grouping order A before B), the
code returns B before A — the reverse of the stable grouping order the
claim requires — so the produced ranking differs from the spec-stated
stable-tie-break ranking. -/
theorem topCategories_tie_reversed :
    topCategoriesDesc exTie "Category" "Amount" =
      [("B", 10), ("A", 10), ("C", 5)] ∧
    specTopCategoriesStable exTie "Category" "Amount" =
      [("A", 10), ("B", 10), ("C", 5)] ∧
    topCategoriesDesc exTie "Category" "Amount" ≠
      specTopCategoriesStable exTie "Category" "Amount" := by
  refine ⟨by decide, by decide, by decide⟩

/-- Claim C10: the two top-10 computations — ascending sort with the
last ten kept (PDF bar chart) versus descending sort with the first ten
kept (dashboard chart and detail table) — agree: one sequence is
exactly the reverse of the other, so they select the same entries with
the same summed amounts, ties included. -/
theorem topCategories_asc_desc_agree (df : Frame) (cc ac : String) :
    topCategoriesChartAsc df cc ac = (topCategoriesDesc df cc ac).reverse ∧
    (∀ p : String × ℚ,
      p ∈ topCategoriesChartAsc df cc ac ↔ p ∈ topCategoriesDesc df cc ac) := by
  have h : topCategoriesChartAsc df cc ac =
      (topCategoriesDesc df cc ac).reverse := by
    rw [topCategoriesChartAsc, topCategoriesDesc, sortValuesDesc,
      lastN_eq_reverse_take]
  exact ⟨h, fun p => by rw [h, List.mem_reverse]⟩

/-- Claim C8: each detail-table percentage is the category revenue over
the top-10 subtotal (not the full total) times 100, so the raw
percentages sum to exactly 100 whenever the subtotal is positive, and
after rounding each of the at most ten rows to one decimal place the
displayed column still sums to 100 up to a rounding error of 1/2. -/
theorem detail_percentages_sum_100 (df : Frame) (cc ac : String)
    (h : 0 < detailSubtotal df cc ac) :
    (detailRawPercentages df cc ac).sum = 100 ∧
    |(detailPercentagesRounded df cc ac).sum - 100| ≤ 1 / 2 := by
  have hne : detailSubtotal df cc ac ≠ 0 := ne_of_gt h
  have hmap : detailRawPercentages df cc ac
      = (topCategoriesDesc df cc ac).map
          (fun p => p.2 * (100 / detailSubtotal df cc ac)) := by
    rw [detailRawPercentages]
    refine List.map_congr_left (fun p _ => ?_)
    rw [if_pos h]
    ring
  have hraw : (detailRawPercentages df cc ac).sum = 100 := by
    rw [hmap, List.sum_map_mul_right]
    rw [show ((topCategoriesDesc df cc ac).map (fun p => p.2)).sum
        = detailSubtotal df cc ac from rfl]
    rw [mul_comm, div_mul_cancel₀ _ hne]
  refine ⟨hraw, ?_⟩
  have hlen : ((detailRawPercentages df cc ac).length : ℚ) ≤ 10 := by
    have : (detailRawPercentages df cc ac).length ≤ 10 := by
      rw [detailRawPercentages, List.length_map]
      exact List.length_take_le _ _
    exact_mod_cast this
  have hb := sum_round1_bound (detailRawPercentages df cc ac)
  rw [detailPercentagesRounded, ← hraw]
  calc |((detailRawPercentages df cc ac).map round1).sum
        - (detailRawPercentages df cc ac).sum|
      ≤ ((detailRawPercentages df cc ac).length : ℚ) * (1 / 20) := hb
    _ ≤ 10 * (1 / 20) := by
        have h20 : (0 : ℚ) ≤ 1 / 20 := by norm_num
        exact mul_le_mul_of_nonneg_right hlen h20
    _ = 1 / 2 := by norm_num

unseal Rat.add Rat.mul Rat.inv Rat.sub in
/-- Claim C8, witness: with two categories splitting revenue 60 and 40
the subtotal is positive, the raw percentages sum to 100, and the
rounded column sums to 100 within 1/2. -/
theorem detail_percentages_sum_100_witness :
    0 < detailSubtotal exPct "Category" "Amount" ∧
    (detailRawPercentages exPct "Category" "Amount").sum = 100 ∧
    |(detailPercentagesRounded exPct "Category" "Amount").sum - 100| ≤ 1 / 2 := by
  have h : 0 < detailSubtotal exPct "Category" "Amount" := by decide
  exact ⟨h, (detail_percentages_sum_100 exPct "Category" "Amount" h).1,
    (detail_percentages_sum_100 exPct "Category" "Amount" h).2⟩

/-- Writing a fresh column name onto a row appends the new cell. -/
theorem setCell_of_not_mem (r : Row) (c : String) (v : Val)
    (h : ∀ p ∈ r, p.1 ≠ c) : setCell r c v = r ++ [(c, v)] := by
  rw [setCell, if_neg]
  intro hany
  rcases List.any_eq_true.mp hany with ⟨p, hp, hbeq⟩
  exact h p hp (by simpa using hbeq)

/-- Claim C1 (amended): the CSV download serializes the filtered frame
as it stands at the download line — for a well-formed frame, when both
the date and the amount roles are bound the monthly-chart preparation
has first added a `Month` column to the filtered frame in place, so the
export carries the original columns plus `Month` and every row gains
one month cell; when either role is unbound nothing between filtering
and export touches the frame and the export is the filtered frame
exactly. -/
theorem csv_export_frame (df : Frame) (d a : String)
    (hm : "Month" ∉ df.cols)
    (hw : ∀ r ∈ df.rows, ∀ p ∈ r, p.1 ∈ df.cols) :
    (frameAtExport df (some d) (some a)).cols = df.cols ++ ["Month"] ∧
    (frameAtExport df (some d) (some a)).rows =
      df.rows.map (fun r => r ++ [("Month", rowMonthVal d r)]) ∧
    (∀ ac : Option String, frameAtExport df none ac = df) ∧
    (∀ dc : Option String, frameAtExport df dc none = df) := by
  have hc : df.cols.contains "Month" = false := by
    rw [List.contains_eq_any_beq, List.any_eq_false]
    intro c hcmem
    simp only [beq_iff_eq]
    intro hcontra
    exact hm (hcontra ▸ hcmem)
  refine ⟨?_, ?_, fun ac => rfl, fun dc => by cases dc <;> rfl⟩
  · show (addMonthColumn df d).cols = df.cols ++ ["Month"]
    rw [addMonthColumn]
    simp only [hc]
    rfl
  · show (addMonthColumn df d).rows = _
    rw [addMonthColumn]
    refine List.map_congr_left (fun r hr => ?_)
    refine setCell_of_not_mem r "Month" (rowMonthVal d r) (fun p hp => ?_)
    intro hcontra
    exact hm (hcontra ▸ hw r hr p hp)

/-- Claim C1, witness: on the one-row export example the exported
column list is the filtered columns plus `Month`. -/
theorem csv_export_frame_witness :
    ("Month" ∉ exExport.cols) ∧
    (frameAtExport exExport (some "Date") (some "Amount")).cols =
      exExport.cols ++ ["Month"] := by
  have hm : "Month" ∉ exExport.cols := by decide
  have hw : ∀ r ∈ exExport.rows, ∀ p ∈ r, p.1 ∈ exExport.cols := by decide
  exact ⟨hm, (csv_export_frame exExport "Date" "Amount" hm hw).1⟩

/-- Claim C1, counterexample to the claim as stated: with date and
amount roles bound, the serialized CSV differs from the CSV of the
filtered frame — a `Month` column has been added in place between
filtering and export — so the export is not the identical filtered
Dataset. -/
theorem csv_export_not_identical :
    toCsv (frameAtExport exExport (some "Date") (some "Amount")) ≠
      toCsv exExport ∧
    (frameAtExport exExport (some "Date") (some "Amount")).cols ≠
      exExport.cols ∧
    toCsv (frameAtExport exExport (some "Date") (some "Amount")) =
      "Date,Amount,Month\n2024-01-15,100,2024-01\n" ∧
    toCsv exExport = "Date,Amount\n2024-01-15,100\n" := by
  refine ⟨by decide, by decide, by decide, by decide⟩

/-- Claim C9 (amended): the report element sequence is deterministic
with a fixed skeleton — cover, methodology, KPI grid, the four chart
headings in fixed order (trend, top categories, distribution, monthly),
the detail-table heading, footer — and what varies with the input is
not whole chart pages but only the chart image elements with their
accompanying spacing (present exactly when the prerequisite roles are
bound) and the detail table body (present exactly when category and
amount are bound); every chart heading stays in the document even when
its chart is omitted, so ignoring spacing the non-image skeleton is the
same for every role combination. -/
theorem pdf_sections_spec (dc ac cc : Bool) :
    ((PdfElem.chartImage "sales_trend" ∈ pdfElements dc ac cc) ↔
      (dc && ac) = true) ∧
    ((PdfElem.chartImage "top_categories" ∈ pdfElements dc ac cc) ↔
      (cc && ac) = true) ∧
    ((PdfElem.chartImage "sales_distribution" ∈ pdfElements dc ac cc) ↔
      ac = true) ∧
    ((PdfElem.chartImage "monthly_sales" ∈ pdfElements dc ac cc) ↔
      (dc && ac) = true) ∧
    ((PdfElem.categoryTable ∈ pdfElements dc ac cc) ↔ (cc && ac) = true) ∧
    ((pdfElements dc ac cc).filter
        (fun e => !(isVarElem e) && e != PdfElem.spacer) =
      (pdfElements true true true).filter
        (fun e => !(isVarElem e) && e != PdfElem.spacer)) := by
  cases dc <;> cases ac <;> cases cc <;>
    refine ⟨?_, ?_, ?_, ?_, ?_, ?_⟩ <;> decide

/-- Claim C9, counterexample to the claim as stated: with the category
role unbound (date and amount bound), the top-categories chart page is
not omitted — its heading is still emitted, only the image is dropped —
and the detail table is a second place where the element count varies. -/
theorem pdf_heading_survives_unbound_role :
    PdfElem.heading "Top Categories Performance" ∈ pdfElements true true false ∧
    PdfElem.chartImage "top_categories" ∉ pdfElements true true false ∧
    PdfElem.categoryTable ∉ pdfElements true true false ∧
    PdfElem.categoryTable ∈ pdfElements true true true := by
  refine ⟨by decide, by decide, by decide, by decide⟩
